import Mathlib

/-!
# Verification of the xbot scheduling and engagement-feedback core

A shallow embedding of the bot's scheduler/orchestrator
(`src/services/scheduler.js`), the engagement-store data access layer
(`src/models/engagement.js`), the metrics tracker (`src/utils/metrics.js`),
the generation gateway (`src/services/llm.js`) and the token-freshness and
symbol-extraction logic (`src/services/twitter.js`), together with proofs
and refutations of the specified properties.

Conventions of the embedding:
* times are integer milliseconds (JS `Date.now()` / ISO timestamps, whose
  lexicographic order coincides with chronological order);
* counts are naturals; JS float divisions over integer inputs are modelled
  exactly over `ℚ`;
* fallible external calls (HTTP to the platform, the LLM, the market-data
  API) are `Except`-valued oracle parameters; persistence is explicit state
  passing over a `Store` value mirroring the SQLite tables.
-/

-- Decidable equality of `Except` results, used to evaluate the embedding on
-- concrete inputs.
deriving instance DecidableEq for Except

namespace XBot

/-! ## Engagement store data model (tables of `src/models/engagement.js`) -/

/-- A row of the `tweets` table: `id, content, created_at, type, prompt_used,
context`.  `created_at` is stored as an ISO text timestamp; its lexicographic
order is chronological, so it is modelled as integer milliseconds. -/
structure TweetRow where
  id : String
  content : String
  created_at : Int
  type : String
  prompt_used : Option String
  context : Option String
deriving DecidableEq, Repr

/-- A row of the `metrics` table: one snapshot of engagement counts for a
tweet (`tweet_id, timestamp, likes, retweets, replies, impressions`).  The
auto-increment surrogate key is omitted; the count columns default to 0. -/
structure MetricRow where
  tweet_id : String
  timestamp : Int
  likes : Nat
  retweets : Nat
  replies : Nat
  impressions : Nat
deriving DecidableEq, Repr

/-- A row of the `performance_analysis` table (the structured JSON fields are
carried opaquely inside `analysis`). -/
structure AnalysisRow where
  tweet_id : String
  timestamp : Int
  analysis : String
deriving DecidableEq, Repr

/-- The persistent engagement store: the three SQLite tables. -/
structure Store where
  tweets : List TweetRow
  metrics : List MetricRow
  analyses : List AnalysisRow
deriving DecidableEq, Repr

/-- A row produced by `getRecentTweetsWithMetrics`: a tweet left-joined with
its most recent snapshot; the three scalar subqueries yield `NULL` (`none`)
when the tweet has no snapshot. -/
structure JoinedRow where
  id : String
  content : String
  created_at : Int
  likes : Option Nat
  retweets : Option Nat
  replies : Option Nat
deriving DecidableEq, Repr

/-- A row produced by `getTopPerformingTweets`: a tweet joined with one of its
snapshots plus the SQL-computed `engagement_score`. -/
structure TopRow where
  id : String
  content : String
  created_at : Int
  likes : Nat
  retweets : Nat
  replies : Nat
  engagement_score : Nat
deriving DecidableEq, Repr

/-- Embeds the SQL `ORDER BY timestamp DESC` comparison for metric snapshots. -/
def tsDesc (a b : MetricRow) : Prop := b.timestamp ≤ a.timestamp

/-- Embeds the SQL `ORDER BY created_at DESC` comparison for tweets. -/
def createdDesc (a b : TweetRow) : Prop := b.created_at ≤ a.created_at

/-- Embeds the SQL `ORDER BY engagement_score DESC` comparison for joined top rows. -/
def scoreDesc (a b : TopRow) : Prop := b.engagement_score ≤ a.engagement_score

instance : DecidableRel tsDesc := fun a b => inferInstanceAs (Decidable (b.timestamp ≤ a.timestamp))
instance : DecidableRel createdDesc := fun a b => inferInstanceAs (Decidable (b.created_at ≤ a.created_at))
instance : DecidableRel scoreDesc := fun a b => inferInstanceAs (Decidable (b.engagement_score ≤ a.engagement_score))

/-- The snapshots of one tweet (`WHERE tweet_id = ?`). -/
def metricsFor (s : Store) (tweetId : String) : List MetricRow :=
  s.metrics.filter fun m => decide (m.tweet_id = tweetId)

/-- Embeds `EngagementModel.getLatestMetrics` (src/models/engagement.js):
`SELECT * FROM metrics WHERE tweet_id = ? ORDER BY timestamp DESC LIMIT 1`,
resolving to `NULL` (`none`) when the tweet has no snapshot. -/
def getLatestMetrics (s : Store) (tweetId : String) : Option MetricRow :=
  (List.insertionSort tsDesc (metricsFor s tweetId)).head?

/-- The correlated scalar subqueries of `getRecentTweetsWithMetrics`: the
latest snapshot's `likes`, `retweets` and `replies` for a tweet, `NULL` when
no snapshot exists. -/
def joinLatest (s : Store) (t : TweetRow) : JoinedRow :=
  let m := getLatestMetrics s t.id
  { id := t.id, content := t.content, created_at := t.created_at,
    likes := m.map (·.likes), retweets := m.map (·.retweets),
    replies := m.map (·.replies) }

/-- Embeds `EngagementModel.getRecentTweetsWithMetrics` (src/models/engagement.js):
all tweets ordered by `created_at DESC`, limited, each with the latest
snapshot's counts via scalar subqueries (`NULL` when absent). -/
def getRecentTweetsWithMetrics (limit : Nat) (s : Store) : List JoinedRow :=
  ((List.insertionSort createdDesc s.tweets).take limit).map (joinLatest s)

/-- The SQL expression `(m.likes + m.retweets * 2 + m.replies * 3)` of
`getTopPerformingTweets`. -/
def sqlEngagementScore (m : MetricRow) : Nat :=
  m.likes + m.retweets * 2 + m.replies * 3

/-- One output row of the `tweets JOIN metrics` in `getTopPerformingTweets`. -/
def mkTopRow (t : TweetRow) (m : MetricRow) : TopRow :=
  { id := t.id, content := t.content, created_at := t.created_at,
    likes := m.likes, retweets := m.retweets, replies := m.replies,
    engagement_score := sqlEngagementScore m }

/-- Embeds `EngagementModel.getTopPerformingTweets` (src/models/engagement.js):
`SELECT t.*, m.likes, m.retweets, m.replies, (m.likes + m.retweets*2 +
m.replies*3) AS engagement_score FROM tweets t JOIN metrics m ON t.id =
m.tweet_id ORDER BY engagement_score DESC LIMIT ?`.  Note this is an inner
join against *every* snapshot of a tweet, not only its latest one. -/
def getTopPerformingTweets (limit : Nat) (s : Store) : List TopRow :=
  (List.insertionSort scoreDesc
    ((s.tweets.map fun t => (metricsFor s t.id).map (mkTopRow t)).flatten)).take
    limit

/-! ## Engagement scores of the other computation paths -/

/-- Twitter `public_metrics` as delivered by the API; fields absent in the
payload are `none` (read through JS `|| 0` defaults). -/
structure PublicMetrics where
  like_count : Option Nat
  retweet_count : Option Nat
  reply_count : Option Nat
  quote_count : Option Nat
deriving DecidableEq, Repr

/-- Embeds `TwitterService.calculateEngagementScore` (src/services/twitter.js):
`(like_count || 0) * 1 + (retweet_count || 0) * 3 + (reply_count || 0) * 2 +
(quote_count || 0) * 2`, and `0` when the metrics object is missing. -/
def calculateEngagementScore : Option PublicMetrics → Nat
  | none => 0
  | some m =>
      m.like_count.getD 0 * 1 + m.retweet_count.getD 0 * 3 +
        m.reply_count.getD 0 * 2 + m.quote_count.getD 0 * 2

/-- The per-tweet engagement term of `MetricsTracker.getPerformanceInsights`
(src/utils/metrics.js): `(likes || 0) + (retweets || 0) * 2 +
(replies || 0) * 3` over a joined row whose counts may be `NULL`. -/
def insightEngagement (t : JoinedRow) : Nat :=
  t.likes.getD 0 + t.retweets.getD 0 * 2 + t.replies.getD 0 * 3

/-! ## Token freshness (`src/services/twitter.js`) -/

/-- The session-scoped `recentTokens` map of first-seen timestamps
(milliseconds), keyed by normalized symbol. -/
structure TokenState where
  recentTokens : List (String × Int)
deriving DecidableEq, Repr

/-- Embeds a `Map.prototype.get`-style lookup in the first-seen map. -/
def lookupToken (sym : String) : List (String × Int) → Option Int
  | [] => none
  | p :: ps => if p.1 = sym then some p.2 else lookupToken sym ps

/-- JS `String.prototype.toUpperCase`, character by character (ASCII range;
the symbols and texts of interest are ASCII). -/
def jsToUpperCase (text : String) : String :=
  String.mk (text.toList.map Char.toUpper)

/-- Embeds `TwitterService.isRecentToken` (src/services/twitter.js): uppercases the
symbol; on first sight records `now` and answers fresh; otherwise answers
whether `(now - firstSeen) / (1000*60*60) < 120` (exact rational division,
which agrees with the JS float division on integer timestamps). -/
def isRecentToken (st : TokenState) (symbol : String) (now : Int) :
    Bool × TokenState :=
  let normalizedSymbol := jsToUpperCase symbol
  match lookupToken normalizedSymbol st.recentTokens with
  | none => (true, ⟨(normalizedSymbol, now) :: st.recentTokens⟩)
  | some firstSeen =>
      (decide ((((now : ℚ) - (firstSeen : ℚ)) / (1000 * 60 * 60)) < 120), st)

/-! ## Symbol extraction (`src/services/twitter.js`) -/

/-- Embeds the `[A-Z]` class of the extraction regex. -/
def isUpperLetter (c : Char) : Bool := 'A' ≤ c && c ≤ 'Z'

/-- JS regex `\w` (the regex has no `u` flag): `[A-Za-z0-9_]`. -/
def isWordChar (c : Char) : Bool :=
  isUpperLetter c || ('a' ≤ c && c ≤ 'z') || ('0' ≤ c && c ≤ '9') || c == '_'

/-- The `\b` test after the captured letters: holds at end of input or when
the next character is not a word character (the preceding character is a
letter, hence a word character). -/
def boundaryOk : List Char → Bool
  | [] => true
  | d :: _ => !(isWordChar d)

/-- The scan performed by `matchAll` with `/[$#]([A-Z]{2,6})\b/g`: at a `$` or
`#`, the greedy-with-backtracking match of `([A-Z]{2,6})\b` succeeds exactly
when the maximal following run of uppercase letters has length 2–6 and the
character after the run is absent or not a word character (every shorter
candidate ends before a letter, so backtracking never helps).  `matchAll`
resumes after a successful match at its end and after a failure at the next
position; since the matched region past the sigil consists of uppercase
letters only — at which no new match can start — resuming at the character
after the sigil, as done here for structural recursion, scans identically. -/
def scanSymbols : List Char → List (List Char)
  | [] => []
  | c :: cs =>
    if c = '$' ∨ c = '#' then
      let run := cs.takeWhile isUpperLetter
      if 2 ≤ run.length ∧ run.length ≤ 6 ∧ boundaryOk (cs.dropWhile isUpperLetter) then
        run :: scanSymbols cs
      else
        scanSymbols cs
    else
      scanSymbols cs

/-- Embeds `TwitterService.extractTokenSymbols` (src/services/twitter.js): uppercase
the whole text, then collect the capture groups of
`/[$#]([A-Z]{2,6})\b/g` via `matchAll`. -/
def extractTokenSymbols (text : String) : List String :=
  (scanSymbols (jsToUpperCase text).toList).map fun cs => String.mk cs

/-! ## Generation gateway (`src/services/llm.js`) -/

/-- JS `String.prototype.trim`, removing leading and trailing whitespace. -/
def jsTrim (s : String) : String :=
  String.mk (((s.toList.dropWhile Char.isWhitespace).reverse.dropWhile
    Char.isWhitespace).reverse)

/-- The keys of the prompt-template map exported by `src/utils/prompts.js`. -/
def promptNames : List String := ["tweet", "reply", "trends", "analyze"]

/-- Embeds `LLMService.generateContent` (src/services/llm.js): fails when the
template name is unknown; the `llm` oracle stands for the completion call,
whose failure (transport error or empty `choices`) propagates; on success the
completion text is returned trimmed.  No length validation or truncation
against any platform limit occurs. -/
def generateContent (promptName : String) (llm : Except String String) :
    Except String String :=
  if promptNames.contains promptName then
    match llm with
    | .error e => .error e
    | .ok text => .ok (jsTrim text)
  else
    .error "Prompt template not found"

/-! ## Scheduler/orchestrator (`src/services/scheduler.js`) -/

/-- The context bundle built by `contentService.gatherTweetContext`. -/
structure TweetContext where
  recentEvents : List String
  topCoins : List String
  recentTokens : List String
  trendingTweets : List String
deriving DecidableEq, Repr

/-- An entry of the in-memory `recentTweets` watchlist:
`id, createdAt, content, context` as pushed by `postScheduledTweet`. -/
structure WatchEntry where
  id : String
  createdAt : Int
  content : String
  context : TweetContext
deriving DecidableEq, Repr

/-- The mutable state of `SchedulerService`: the `recentTweets` watchlist
(ordered oldest first, since `push` appends and `shift` drops the front). -/
structure SchedulerState where
  recentTweets : List WatchEntry
deriving DecidableEq, Repr

/-- Embeds `SchedulerService.postScheduledTweet` (src/services/scheduler.js).
Oracles: `gather` is the result of `contentService.gatherTweetContext()`,
`llm` the raw completion for the `tweet` prompt (consumed through
`generateContent`, i.e. `llmService.generateTweet`), `post` is
`twitterService.postTweet` returning the new tweet id.  A failure at any
stage aborts the cycle with no state change; on success the tweet is pushed
onto the watchlist, which is then trimmed to its last 20 entries by dropping
the front.  The engagement store is never touched here: the posted tweet is
not persisted. -/
def postScheduledTweet (gather : Except String TweetContext)
    (llm : Except String String) (post : String → Except String String)
    (now : Int) (st : SchedulerState) (s : Store) :
    Except String String × SchedulerState × Store :=
  match gather with
  | .error e => (.error e, st, s)
  | .ok context =>
    match generateContent "tweet" llm with
    | .error e => (.error e, st, s)
    | .ok tweetContent =>
      match post tweetContent with
      | .error e => (.error e, st, s)
      | .ok tweetId =>
        let rt := st.recentTweets ++ [⟨tweetId, now, tweetContent, context⟩]
        let rt2 := if rt.length > 20 then rt.drop 1 else rt
        (.ok tweetId, ⟨rt2⟩, s)

/-! ## Reply context and mention processing -/

/-- Stateful `Array.prototype.filter` over `isRecentToken`, as used for
`mentionedTokens` in `gatherReplyContext`: the predicate is evaluated left to
right and threads the first-seen map. -/
def filterRecent (st : TokenState) (now : Int) :
    List String → List String × TokenState
  | [] => ([], st)
  | t :: ts =>
      let res := isRecentToken st t now
      let rest := filterRecent res.2 now ts
      (if res.1 then t :: rest.1 else rest.1, rest.2)

/-- The context bundle built by `contentService.gatherReplyContext`.  The
scheduler passes a plain author string as `mentionData`, so its
`author_name`/`author_username` reads yield `undefined` (`none`). -/
structure ReplyContext where
  originalTweet : String
  authorName : Option String
  authorUsername : Option String
  recentTokens : List String
  trendingTweets : List String
  mentionedTokens : List String
deriving DecidableEq, Repr

/-- Embeds `ContentService.gatherReplyContext` (src/services/content.js): the
`recentTokensO`/`trendingTweetsO` oracles stand for `getRecentTokens(3)` and
`getTrendingTweets(3)` (both swallow their own failures and resolve to `[]`,
so context gathering itself never raises); `mentionedTokens` are the symbols
extracted from the original tweet, retained only when `isRecentToken` deems
them inside the freshness window. -/
def gatherReplyContext (recentTokensO trendingTweetsO : List String)
    (st : TokenState) (now : Int) (originalTweet : String)
    (authorName authorUsername : Option String) :
    ReplyContext × TokenState :=
  let mt := filterRecent st now (extractTokenSymbols originalTweet)
  ({ originalTweet := originalTweet, authorName := authorName,
     authorUsername := authorUsername, recentTokens := recentTokensO,
     trendingTweets := trendingTweetsO, mentionedTokens := mt.1 }, mt.2)

/-- An inbound mention tweet (`created_at` in milliseconds). -/
structure Mention where
  id : String
  text : String
  author_id : Option String
  created_at : Int
deriving DecidableEq, Repr

/-- A reply published for a mention: the parent mention id, the id the
platform assigned to the reply, and the reply text. -/
structure ReplyRecord where
  mentionId : String
  replyId : String
  content : String
deriving DecidableEq, Repr

/-- Embeds `SchedulerService.replyToMention` (src/services/scheduler.js): gather the
reply context (total), generate the reply (`genReply` oracle, i.e.
`llmService.generateReply`, may fail), publish it (`publish` oracle, i.e.
`twitterService.replyToTweet`, may fail).  A failure is logged and
re-thrown to the caller. -/
def replyToMention (recentTokensO trendingTweetsO : List String)
    (genReply : ReplyContext → Except String String)
    (publish : String → String → Except String String)
    (st : TokenState) (now : Int) (m : Mention) :
    Except String ReplyRecord × TokenState :=
  -- `mention.author_id || 'user'` is passed as `mentionData`; being a plain
  -- string, its `author_name`/`author_username` properties read back as
  -- `undefined`, so the built context carries `none` for both.
  let _authorName := m.author_id.getD "user"
  let ctx := gatherReplyContext recentTokensO trendingTweetsO st now m.text
    none none
  match genReply ctx.1 with
  | .error e => (.error e, ctx.2)
  | .ok replyContent =>
    match publish m.id replyContent with
    | .error e => (.error e, ctx.2)
    | .ok replyId => (.ok ⟨m.id, replyId, replyContent⟩, ctx.2)

/-- The `for (const mention of newMentions)` loop of
`checkAndReplyToMentions`: mentions are processed strictly in order, each
`await`ed; the records of all published replies are collected.  A failing
`replyToMention` re-throws, so the loop stops and later mentions are not
processed. -/
def replyLoop (recentTokensO trendingTweetsO : List String)
    (genReply : ReplyContext → Except String String)
    (publish : String → String → Except String String)
    (st : TokenState) (now : Int) :
    List Mention → Except String Unit × List ReplyRecord × TokenState
  | [] => (.ok (), [], st)
  | m :: ms =>
    match replyToMention recentTokensO trendingTweetsO genReply publish
        st now m with
    | (.error e, st2) => (.error e, [], st2)
    | (.ok r, st2) =>
      let rest := replyLoop recentTokensO trendingTweetsO genReply publish
        st2 now ms
      (rest.1, r :: rest.2.1, rest.2.2)

/-- Embeds `SchedulerService.checkAndReplyToMentions` (src/services/scheduler.js):
fetch up to 10 mentions (`getMentionsO` oracle), keep those created strictly
within the last hour, reply to each in order; on success return the count of
fresh mentions.  The first per-mention failure aborts the loop and
propagates. -/
def checkAndReplyToMentions (getMentionsO : Except String (List Mention))
    (recentTokensO trendingTweetsO : List String)
    (genReply : ReplyContext → Except String String)
    (publish : String → String → Except String String)
    (st : TokenState) (now : Int) :
    Except String Nat × List ReplyRecord × TokenState :=
  match getMentionsO with
  | .error e => (.error e, [], st)
  | .ok mentions =>
    let newMentions := mentions.filter fun m =>
      decide (now - 3600000 < m.created_at)
    match replyLoop recentTokensO trendingTweetsO genReply publish st now
        newMentions with
    | (.error e, rs, st2) => (.error e, rs, st2)
    | (.ok _, rs, st2) => (.ok newMentions.length, rs, st2)

/-! ## Metrics tracker (`src/utils/metrics.js`) -/

/-- The engagement counts consumed by `EngagementModel.saveMetrics`. -/
structure MetricCounts where
  likes : Nat
  retweets : Nat
  replies : Nat
  impressions : Nat
deriving DecidableEq, Repr

namespace MetricsTracker

/-- Embeds `MetricsTracker.trackTweetMetrics` (src/utils/metrics.js): fetch the
tweet's metrics from the platform (`fetch` oracle, i.e.
`twitterService.getTweetMetrics`, may fail) and append a snapshot row.  A
fetch failure propagates and leaves the store unchanged. -/
def trackTweetMetrics (fetch : String → Except String MetricCounts)
    (now : Int) (tweetId : String) (s : Store) :
    Except String MetricCounts × Store :=
  match fetch tweetId with
  | .error e => (.error e, s)
  | .ok mc =>
      (.ok mc,
       { s with metrics := s.metrics ++
           [⟨tweetId, now, mc.likes, mc.retweets, mc.replies,
             mc.impressions⟩] })

end MetricsTracker

/-- The payload of a performance analysis (the LLM's JSON answer, or the raw
text wrapped when parsing fails; carried opaquely). -/
structure AnalysisData where
  analysis : String
deriving DecidableEq, Repr

/-- Embeds `MetricsTracker.analyzeTweetPerformance` (src/utils/metrics.js): reads
`getRecentTweetsWithMetrics(1)` and fails unless that single most-recent row
has id `tweetId`; fails when `getLatestMetrics` has no snapshot; then asks
the LLM (`llm` oracle standing for `llmService.analyzeTweetPerformance` on
the assembled context, may fail) and appends the analysis row. -/
def analyzeTweetPerformance (llm : String → Except String AnalysisData)
    (now : Int) (tweetId : String) (s : Store) :
    Except String AnalysisData × Store :=
  match (getRecentTweetsWithMetrics 1 s).head? with
  | none => (.error "Tweet not found in database", s)
  | some row =>
    if row.id ≠ tweetId then (.error "Tweet not found in database", s)
    else
      match getLatestMetrics s tweetId with
      | none => (.error "No metrics found", s)
      | some _ =>
        match llm tweetId with
        | .error e => (.error e, s)
        | .ok a =>
            (.ok a,
             { s with analyses := s.analyses ++ [⟨tweetId, now, a.analysis⟩] })

/-- Embeds the `findIndex` on id followed by `splice(index, 1)`: remove the first
watchlist entry with the given id (no-op when absent). -/
def eraseFirstById (tweetId : String) : List WatchEntry → List WatchEntry
  | [] => []
  | e :: es => if e.id = tweetId then es else e :: eraseFirstById tweetId es

/-- The `for (const tweet of tweetsToTrack)` loop of the scheduler's
`trackTweetMetrics`: for each mature entry, fetch-and-persist a snapshot,
then analyze, then remove the entry from the live watchlist.  Each step is
`await`ed without a per-item handler, so the first failure aborts the loop:
the failing entry and all later ones are left on the watchlist, while
whatever was persisted before the failure stays persisted. -/
def processTracked (fetch : String → Except String MetricCounts)
    (llm : String → Except String AnalysisData) (now : Int) :
    List WatchEntry → List WatchEntry → Store →
      Except String Unit × List WatchEntry × Store
  | [], recent, s => (.ok (), recent, s)
  | t :: rest, recent, s =>
    match MetricsTracker.trackTweetMetrics fetch now t.id s with
    | (.error e, s2) => (.error e, recent, s2)
    | (.ok _, s2) =>
      match analyzeTweetPerformance llm now t.id s2 with
      | (.error e, s3) => (.error e, recent, s3)
      | (.ok _, s3) =>
          processTracked fetch llm now rest (eraseFirstById t.id recent) s3

namespace SchedulerService

/-- Embeds `SchedulerService.trackTweetMetrics` (src/services/scheduler.js):
partition the watchlist by the cutoff `now - metricsCheckHours`, process the
mature entries through `processTracked`, and on success return their count
(a trailing read-only `getPerformanceInsights` call is logged and does not
change state). -/
def trackTweetMetrics (fetch : String → Except String MetricCounts)
    (llm : String → Except String AnalysisData) (now : Int)
    (metricsCheckHours : Nat) (st : SchedulerState) (s : Store) :
    Except String Nat × SchedulerState × Store :=
  let cutoffTime := now - (metricsCheckHours : Int) * 3600000
  let tweetsToTrack := st.recentTweets.filter fun t =>
    decide (t.createdAt < cutoffTime)
  match processTracked fetch llm now tweetsToTrack st.recentTweets s with
  | (.error e, recent, s2) => (.error e, ⟨recent⟩, s2)
  | (.ok _, recent, s2) => (.ok tweetsToTrack.length, ⟨recent⟩, s2)

end SchedulerService

/-! ## Insight computation (`src/utils/metrics.js`) -/

/-- The pattern statistics of `identifyPatterns`: the raw counters of the
base object, and the average/percentage fields that are only written for a
non-empty input (`none` models the absent JS property). -/
structure Patterns where
  hasEmojis : Nat
  hasMentions : Nat
  hasHashtags : Nat
  hasQuestions : Nat
  charCount : Nat
  avgCharCount : Option ℚ
  emojisPercentage : Option ℚ
  hashtagsPercentage : Option ℚ
  questionsPercentage : Option ℚ
deriving DecidableEq, Repr

/-- The initial `patterns` object of `identifyPatterns`. -/
def zeroPatterns : Patterns := ⟨0, 0, 0, 0, 0, none, none, none, none⟩

/-- The emoji test `/[\u{1F300}-\u{1F6FF}]/u`. -/
def hasEmojiChar (c : Char) : Bool := 0x1F300 ≤ c.toNat && c.toNat ≤ 0x1F6FF

/-- Whether the text contains a character in the emoji range. -/
def containsEmoji (s : String) : Bool := s.toList.any hasEmojiChar

/-- The tests `/@\w+/` and `/#\w+/`: a marker character followed by at least
one word character. -/
def containsMarker (mark : Char) : List Char → Bool
  | [] => false
  | [_] => false
  | c :: d :: cs => (c = mark && isWordChar d) || containsMarker mark (d :: cs)

/-- One `forEach` step of `identifyPatterns` over a top tweet. -/
def patternStep (p : Patterns) (t : TopRow) : Patterns :=
  { p with
    hasEmojis := p.hasEmojis + (if containsEmoji t.content then 1 else 0),
    hasMentions :=
      p.hasMentions + (if containsMarker '@' t.content.toList then 1 else 0),
    hasHashtags :=
      p.hasHashtags + (if containsMarker '#' t.content.toList then 1 else 0),
    hasQuestions :=
      p.hasQuestions + (if t.content.toList.contains '?' then 1 else 0),
    charCount := p.charCount + t.content.length }

/-- Embeds `MetricsTracker.identifyPatterns` (src/utils/metrics.js): a missing
(`none`) or empty tweet list short-circuits to the all-zero base object,
before any average is computed; otherwise the counters are accumulated and
the average/percentage fields are written (exact rational division matching
the JS float division for the stated property; no mentions percentage is
computed in the source). -/
def identifyPatterns : Option (List TopRow) → Patterns
  | none => zeroPatterns
  | some [] => zeroPatterns
  | some tweets =>
      let base := tweets.foldl patternStep zeroPatterns
      { base with
        avgCharCount := some ((base.charCount : ℚ) / (tweets.length : ℚ)),
        emojisPercentage :=
          some (((base.hasEmojis : ℚ) / (tweets.length : ℚ)) * 100),
        hashtagsPercentage :=
          some (((base.hasHashtags : ℚ) / (tweets.length : ℚ)) * 100),
        questionsPercentage :=
          some (((base.hasQuestions : ℚ) / (tweets.length : ℚ)) * 100) }

/-- The result object of `getPerformanceInsights`. -/
structure Insights where
  topTweets : List TopRow
  avgEngagement : ℚ
  patterns : Patterns
  sampleSize : Nat
deriving DecidableEq, Repr

/-- Embeds `MetricsTracker.getPerformanceInsights` (src/utils/metrics.js): top-5
tweets, recent-10 tweets, average engagement
`Σ insightEngagement / (length || 1)` (the `|| 1` guards the empty sample),
and the patterns of the top tweets. -/
def getPerformanceInsights (s : Store) : Insights :=
  let topTweets := getTopPerformingTweets 5 s
  let recentTweets := getRecentTweetsWithMetrics 10 s
  let total := recentTweets.foldl (fun acc t => acc + insightEngagement t) 0
  let divisor : Nat := if recentTweets.length = 0 then 1 else recentTweets.length
  { topTweets := topTweets,
    avgEngagement := (total : ℚ) / (divisor : ℚ),
    patterns := identifyPatterns (some topTweets),
    sampleSize := recentTweets.length }

/-- The inputs of one `postScheduledTweet` invocation (the oracle results of
its three external stages plus the wall clock). -/
structure ScheduleCall where
  gather : Except String TweetContext
  llm : Except String String
  post : String → Except String String
  now : Int

/-- A sequence of `postScheduledTweet` invocations, threading the scheduler
state and the store. -/
def runSchedule : List ScheduleCall → SchedulerState → Store →
    SchedulerState × Store
  | [], st, s => (st, s)
  | c :: rest, st, s =>
      let r := postScheduledTweet c.gather c.llm c.post c.now st s
      runSchedule rest r.2.1 r.2.2

/-! ## Helper lemmas -/

instance : IsTotal TopRow scoreDesc :=
  ⟨fun a b => Nat.le_total b.engagement_score a.engagement_score⟩

instance : IsTrans TopRow scoreDesc :=
  ⟨fun _ _ _ hab hbc => le_trans hbc hab⟩

/-- The freshness comparison of `isRecentToken`, rewritten without the
division: fewer than 120 hours have elapsed iff `now` is before
`firstSeen + 432000000` milliseconds. -/
theorem freshWindow_iff (now t0 : Int) :
    ((((now : ℚ) - (t0 : ℚ)) / (1000 * 60 * 60)) < 120) ↔
      now < t0 + 432000000 := by
  rw [div_lt_iff₀ (by norm_num : (0 : ℚ) < 1000 * 60 * 60), sub_lt_iff_lt_add]
  constructor
  · intro h
    have : (now : ℚ) < ((t0 + 432000000 : Int) : ℚ) := by push_cast; linarith
    exact_mod_cast this
  · intro h
    have : (now : ℚ) < ((t0 + 432000000 : Int) : ℚ) := by exact_mod_cast h
    push_cast at this
    linarith

/-- Lemma: `isRecentToken` preserves every first-seen entry already present in the
map (it only ever inserts an absent key). -/
theorem lookupToken_isRecentToken (st : TokenState) (sym : String) (now : Int)
    (k : String) (v : Int) (h : lookupToken k st.recentTokens = some v) :
    lookupToken k (isRecentToken st sym now).2.recentTokens = some v := by
  unfold isRecentToken
  cases hl : lookupToken (jsToUpperCase sym) st.recentTokens with
  | none =>
      simp only [hl]
      by_cases hk : jsToUpperCase sym = k
      · rw [hk] at hl
        rw [hl] at h
        simp at h
      · simp [lookupToken, hk, h]
  | some t1 =>
      simp only [hl]
      simpa using h

/-- One `postScheduledTweet` call preserves the 20-entry watchlist bound. -/
theorem postScheduledTweet_length_le (gather : Except String TweetContext)
    (llm : Except String String) (post : String → Except String String)
    (now : Int) (st : SchedulerState) (s : Store)
    (h : st.recentTweets.length ≤ 20) :
    (postScheduledTweet gather llm post now st s).2.1.recentTweets.length
      ≤ 20 := by
  unfold postScheduledTweet
  cases gather with
  | error e => simpa using h
  | ok ctx =>
    dsimp only
    generalize generateContent "tweet" llm = g
    cases g with
    | error e => simpa using h
    | ok content =>
      dsimp only
      generalize post content = pr
      cases pr with
      | error e => simpa using h
      | ok tweetId =>
        dsimp only
        split
        · simp only [List.length_drop, List.length_append, List.length_cons,
            List.length_nil]
          omega
        · rename_i hlen
          simp only [List.length_append, List.length_cons, List.length_nil,
            Nat.not_lt] at hlen
          simpa using hlen

/-- The watchlist bound is an invariant of arbitrary call sequences. -/
theorem runSchedule_length_le (calls : List ScheduleCall) :
    ∀ (st : SchedulerState) (s : Store), st.recentTweets.length ≤ 20 →
      (runSchedule calls st s).1.recentTweets.length ≤ 20 := by
  induction calls with
  | nil => intro st s h; exact h
  | cons c rest ih =>
      intro st s h
      exact ih _ _ (postScheduledTweet_length_le c.gather c.llm c.post c.now
        st s h)

/-! ## Claims -/

/-- Claim **C4 (counterexample)**: the claim says every engagement-score
computation uses one of exactly two weightings over the three counts
(likes×1 + reshares×3 + replies×2, or likes×1 + reshares×2 + replies×3) and
no path includes any other term.  `calculateEngagementScore` has a fourth
term, `quote_count × 2`: on metrics with zero likes/reshares/replies and one
quote it yields 2, while both claimed weightings yield 0. -/
theorem C4_counterexample :
    calculateEngagementScore (some ⟨some 0, some 0, some 0, some 1⟩) ≠
      0 * 1 + 0 * 3 + 0 * 2 ∧
    calculateEngagementScore (some ⟨some 0, some 0, some 0, some 1⟩) ≠
      0 * 1 + 0 * 2 + 0 * 3 := by
  decide

/-- Claim **C4 (amended)**: the platform-browsing path
(`calculateEngagementScore`) uses likes×1 + reshares×3 + replies×2 PLUS
quotes×2 (reducing to the claimed weighting only when the quote count is
zero), and the two feedback/insight paths — the in-code average of
`getPerformanceInsights` and the SQL score of `getTopPerformingTweets` —
both use likes×1 + reshares×2 + replies×3 and agree with each other. -/
theorem C4_engagement_weightings (l r p q : Nat) (i c : String) (d : Int) :
    calculateEngagementScore (some ⟨some l, some r, some p, some q⟩) =
      l * 1 + r * 3 + p * 2 + q * 2 ∧
    calculateEngagementScore none = 0 ∧
    insightEngagement ⟨i, c, d, some l, some r, some p⟩ =
      l * 1 + r * 2 + p * 3 ∧
    sqlEngagementScore ⟨i, d, l, r, p, q⟩ = l * 1 + r * 2 + p * 3 ∧
    insightEngagement ⟨i, c, d, some l, some r, some p⟩ =
      sqlEngagementScore ⟨i, d, l, r, p, q⟩ := by
  refine ⟨?_, rfl, ?_, ?_, ?_⟩ <;>
    simp [calculateEngagementScore, insightEngagement, sqlEngagementScore,
      Nat.mul_comm]

/-- Claim **C6**: `isRecentToken` classifies a symbol fresh on its first-ever
query (and records `now` as its first-seen time); a later query leaves the
first-seen map untouched and classifies the symbol fresh exactly when fewer
than 120 hours (432000000 ms) have elapsed since the first observation —
so at or after 120 hours it is stale, before that fresh, and repeated
queries never move the first-seen time. -/
theorem C6_token_freshness (st : TokenState) (symbol : String) (now t0 : Int) :
    (lookupToken (jsToUpperCase symbol) st.recentTokens = none →
      (isRecentToken st symbol now).1 = true ∧
      (isRecentToken st symbol now).2.recentTokens =
        (jsToUpperCase symbol, now) :: st.recentTokens) ∧
    (lookupToken (jsToUpperCase symbol) st.recentTokens = some t0 →
      (isRecentToken st symbol now).2 = st ∧
      ((isRecentToken st symbol now).1 = true ↔
        now < t0 + 120 * 3600000)) := by
  constructor
  · intro h
    unfold isRecentToken
    simp [h]
  · intro h
    unfold isRecentToken
    simp only [h]
    refine ⟨by trivial, ?_⟩
    rw [decide_eq_true_iff, freshWindow_iff]
    norm_num

/-- Claim **C6 (witness)**: concrete instances — an unseen symbol is fresh; the
same symbol is stale exactly 120 hours after first observation, and a repeat
query 1 ms earlier is fresh and leaves the map unchanged. -/
theorem C6_token_freshness_witness :
    (isRecentToken ⟨[]⟩ "pepe" 5).1 = true ∧
    (isRecentToken ⟨[("PEPE", 0)]⟩ "pepe" 432000000).1 = false ∧
    (isRecentToken ⟨[("PEPE", 0)]⟩ "pepe" 431999999).1 = true ∧
    (isRecentToken ⟨[("PEPE", 0)]⟩ "pepe" 431999999).2 = ⟨[("PEPE", 0)]⟩ := by
  refine ⟨((C6_token_freshness ⟨[]⟩ "pepe" 5 0).1 (by decide)).1, ?_, ?_, ?_⟩
  · have h := (C6_token_freshness ⟨[("PEPE", 0)]⟩ "pepe" 432000000 0).2
      (by decide)
    exact Bool.eq_false_iff.mpr fun hb => absurd (h.2.mp hb) (by decide)
  · exact ((C6_token_freshness ⟨[("PEPE", 0)]⟩ "pepe" 431999999 0).2
      (by decide)).2.mpr (by decide)
  · exact ((C6_token_freshness ⟨[("PEPE", 0)]⟩ "pepe" 431999999 0).2
      (by decide)).1

/-- Claim **C10**: the insight computation is total on empty data: over a store
with zero posts the average engagement is 0 (the divisor is guarded by
`length || 1`) and the sample size is 0; `identifyPatterns` on a missing or
empty tweet list short-circuits to the all-zero counters with no average or
percentage fields computed. -/
theorem C10_insights_total_on_empty (ms : List MetricRow)
    (an : List AnalysisRow) :
    (getPerformanceInsights ⟨[], ms, an⟩).avgEngagement = 0 ∧
    (getPerformanceInsights ⟨[], ms, an⟩).sampleSize = 0 ∧
    identifyPatterns none = zeroPatterns ∧
    identifyPatterns (some []) = zeroPatterns := by
  refine ⟨?_, ?_, rfl, rfl⟩ <;>
    simp [getPerformanceInsights, getRecentTweetsWithMetrics,
      List.insertionSort]

/-- Claim **C5**: starting from the empty watchlist, after every sequence of
`postScheduledTweet` calls the watchlist holds at most 20 entries; and when a
successful call would exceed the cap (the list already holds 20), the entry
evicted is the front of the list — the oldest, since `push` appends and
`shift` drops the front. -/
theorem C5_watchlist_cap (calls : List ScheduleCall) (s : Store) :
    (runSchedule calls ⟨[]⟩ s).1.recentTweets.length ≤ 20 ∧
    (∀ (gather : Except String TweetContext) (llm : Except String String)
       (post : String → Except String String) (now : Int)
       (st : SchedulerState) (s2 : Store) (tweetId : String),
       st.recentTweets.length = 20 →
       (postScheduledTweet gather llm post now st s2).1 = .ok tweetId →
       ∃ e : WatchEntry, e.id = tweetId ∧
         (postScheduledTweet gather llm post now st s2).2.1.recentTweets =
           st.recentTweets.drop 1 ++ [e]) := by
  constructor
  · exact runSchedule_length_le calls ⟨[]⟩ s (by simp)
  · intro gather llm post now st s2 tweetId h20 hok
    unfold postScheduledTweet at hok ⊢
    cases gather with
    | error e => simp at hok
    | ok ctx =>
      dsimp only at hok ⊢
      generalize generateContent "tweet" llm = g at hok ⊢
      cases g with
      | error e => simp at hok
      | ok content =>
        dsimp only at hok ⊢
        generalize post content = pr at hok ⊢
        cases pr with
        | error e => simp at hok
        | ok tid =>
          dsimp only at hok ⊢
          simp only [Except.ok.injEq] at hok
          subst hok
          refine ⟨⟨tid, now, content, ctx⟩, rfl, ?_⟩
          rw [if_pos (by simp [h20])]
          rw [List.drop_append_of_le_length (by omega)]

/-- Claim **C5 (witness)**: a successful call on a full 20-entry watchlist evicts
exactly the front entry. -/
theorem C5_watchlist_cap_witness :
    ∃ e : WatchEntry, e.id = "id21" ∧
      (postScheduledTweet (.ok ⟨[], [], [], []⟩) (.ok "gm")
          (fun _ => .ok "id21") 0
          ⟨List.replicate 20 ⟨"t0", 0, "c", ⟨[], [], [], []⟩⟩⟩
          ⟨[], [], []⟩).2.1.recentTweets =
        (List.replicate 20
            (⟨"t0", 0, "c", ⟨[], [], [], []⟩⟩ : WatchEntry)).drop 1 ++ [e] :=
  (C5_watchlist_cap [] ⟨[], [], []⟩).2 (.ok ⟨[], [], [], []⟩) (.ok "gm")
    (fun _ => .ok "id21") 0
    ⟨List.replicate 20 ⟨"t0", 0, "c", ⟨[], [], [], []⟩⟩⟩ ⟨[], [], []⟩
    "id21" (by rfl) (by rfl)

/-- Claim **C9**: `analyzeTweetPerformance` fails (with no store change) whenever
`tweetId` is not the id of the single most-recent row of the store — it
reads only `getRecentTweetsWithMetrics(1)` and requires that row's id to be
`tweetId`.  `postScheduledTweet` never writes to the store, so a tweet
posted only through the scheduler is absent from the store's `tweets` and
its performance analysis always fails. -/
theorem C9_analysis_requires_latest_row
    (llm : String → Except String AnalysisData) (now : Int) (tweetId : String)
    (s : Store) (gather : Except String TweetContext)
    (llm2 : Except String String) (post : String → Except String String)
    (now2 : Int) (st : SchedulerState) :
    ((getRecentTweetsWithMetrics 1 s).head?.map (fun r => r.id) ≠
        some tweetId →
      (analyzeTweetPerformance llm now tweetId s).1 =
          .error "Tweet not found in database" ∧
        (analyzeTweetPerformance llm now tweetId s).2 = s) ∧
    (postScheduledTweet gather llm2 post now2 st s).2.2 = s ∧
    ((∀ t ∈ s.tweets, t.id ≠ tweetId) →
      (analyzeTweetPerformance llm now tweetId s).1 =
        .error "Tweet not found in database") := by
  refine ⟨?_, ?_, ?_⟩
  · intro hne
    unfold analyzeTweetPerformance
    cases hh : (getRecentTweetsWithMetrics 1 s).head? with
    | none => exact ⟨rfl, rfl⟩
    | some row =>
        dsimp only
        have hid : row.id ≠ tweetId := by
          intro he
          exact hne (by rw [hh]; simp [he])
        rw [if_pos hid]
        exact ⟨rfl, rfl⟩
  · unfold postScheduledTweet
    cases gather with
    | error e => rfl
    | ok ctx =>
      dsimp only
      generalize generateContent "tweet" llm2 = g
      cases g with
      | error e => rfl
      | ok content =>
        dsimp only
        generalize post content = pr
        cases pr with
        | error e => rfl
        | ok tid => rfl
  · intro hall
    cases hh : (getRecentTweetsWithMetrics 1 s).head? with
    | none =>
        unfold analyzeTweetPerformance
        rw [hh]
    | some row =>
        have hrow : row ∈ getRecentTweetsWithMetrics 1 s :=
          List.mem_of_mem_head? (by simp [hh, Option.mem_def])
        simp only [getRecentTweetsWithMetrics] at hrow
        obtain ⟨t, ht, hjoin⟩ := List.mem_map.mp hrow
        have ht2 : t ∈ s.tweets :=
          (List.mem_insertionSort _).mp (List.mem_of_mem_take ht)
        have hid : row.id ≠ tweetId := by
          have : row.id = t.id := by rw [← hjoin]; rfl
          rw [this]
          exact hall t ht2
        unfold analyzeTweetPerformance
        rw [hh]
        dsimp only
        rw [if_pos hid]

/-- Claim **C9 (witness)**: over a store holding only a tweet `"a"`, analysing
tweet `"b"` fails, and a scheduler post leaves the store unchanged. -/
theorem C9_analysis_requires_latest_row_witness :
    (analyzeTweetPerformance (fun _ => .ok ⟨"done"⟩) 0 "b"
        ⟨[⟨"a", "x", 0, "generated", none, none⟩], [], []⟩).1 =
      .error "Tweet not found in database" ∧
    (postScheduledTweet (.ok ⟨[], [], [], []⟩) (.ok "x") (fun _ => .ok "b") 0
        ⟨[]⟩ ⟨[⟨"a", "x", 0, "generated", none, none⟩], [], []⟩).2.2 =
      ⟨[⟨"a", "x", 0, "generated", none, none⟩], [], []⟩ :=
  ⟨(C9_analysis_requires_latest_row (fun _ => .ok ⟨"done"⟩) 0 "b"
      ⟨[⟨"a", "x", 0, "generated", none, none⟩], [], []⟩
      (.ok ⟨[], [], [], []⟩) (.ok "x") (fun _ => .ok "b") 0 ⟨[]⟩).2.2
    (by decide),
   (C9_analysis_requires_latest_row (fun _ => .ok ⟨"done"⟩) 0 "b"
      ⟨[⟨"a", "x", 0, "generated", none, none⟩], [], []⟩
      (.ok ⟨[], [], [], []⟩) (.ok "x") (fun _ => .ok "b") 0 ⟨[]⟩).2.1⟩

set_option maxRecDepth 10000 in
/-- Claim **C3 (counterexample)**: the claim says generated text is validated or
truncated against the platform's 280-character limit before publishing and
an over-limit text is never published.  But no length check exists anywhere
on the path: a 281-character generation is passed to the publisher verbatim
and the cycle succeeds (the publisher oracle here returns its input as the
id, exhibiting exactly what was published). -/
theorem C3_counterexample :
    (postScheduledTweet (.ok ⟨[], [], [], []⟩)
        (.ok (String.mk (List.replicate 281 'a')))
        (fun t => .ok t) 0 ⟨[]⟩ ⟨[], [], []⟩).1 =
      .ok (String.mk (List.replicate 281 'a')) ∧
    (String.mk (List.replicate 281 'a')).length = 281 :=
  ⟨rfl, rfl⟩

/-- Claim **C3 (amended)**: the generation gateway only trims whitespace — it
performs no validation or truncation against any length limit — and the
posting cycle publishes the trimmed generation verbatim: whenever the
publisher accepts the trimmed text, the cycle succeeds with it, regardless
of its length.  (The only length influence in the source is a "maximum 280
characters" instruction inside the prompt text itself.) -/
theorem C3_no_length_validation (ctx : TweetContext) (llmText : String)
    (post : String → Except String String) (now : Int) (st : SchedulerState)
    (s : Store) (tweetId : String)
    (h : post (jsTrim llmText) = .ok tweetId) :
    generateContent "tweet" (.ok llmText) = .ok (jsTrim llmText) ∧
    (postScheduledTweet (.ok ctx) (.ok llmText) post now st s).1 =
      .ok tweetId := by
  constructor
  · rfl
  · unfold postScheduledTweet
    dsimp only
    rw [show generateContent "tweet" (Except.ok llmText) =
      .ok (jsTrim llmText) from rfl]
    dsimp only
    rw [h]

/-- Claim **C3 (witness)**: a concrete cycle whose publisher accepts the trimmed
generation succeeds with it. -/
theorem C3_no_length_validation_witness :
    generateContent "tweet" (.ok " gm fam ") = .ok (jsTrim " gm fam ") ∧
    (postScheduledTweet (.ok ⟨[], [], [], []⟩) (.ok " gm fam ")
        (fun _ => .ok "tid1") 0 ⟨[]⟩ ⟨[], [], []⟩).1 = .ok "tid1" :=
  C3_no_length_validation ⟨[], [], [], []⟩ " gm fam " (fun _ => .ok "tid1")
    0 ⟨[]⟩ ⟨[], [], []⟩ "tid1" rfl

/-- Unfolding lemma: the mention loop on a batch headed by a mention whose
reply fails aborts with that error and publishes nothing. -/
theorem replyLoop_cons_error (rt tt : List String)
    (gen : ReplyContext → Except String String)
    (pub : String → String → Except String String) (st st2 : TokenState)
    (now : Int) (m : Mention) (ms : List Mention) (e : String)
    (hr : replyToMention rt tt gen pub st now m = (.error e, st2)) :
    replyLoop rt tt gen pub st now (m :: ms) = (.error e, [], st2) := by
  unfold replyLoop
  rw [hr]

/-- Unfolding lemma: the mention loop on a batch headed by a successfully
answered mention records that reply and continues with the threaded token
state. -/
theorem replyLoop_cons_ok (rt tt : List String)
    (gen : ReplyContext → Except String String)
    (pub : String → String → Except String String) (st st2 : TokenState)
    (now : Int) (m : Mention) (ms : List Mention) (r : ReplyRecord)
    (hr : replyToMention rt tt gen pub st now m = (.ok r, st2)) :
    replyLoop rt tt gen pub st now (m :: ms) =
      ((replyLoop rt tt gen pub st2 now ms).1,
       r :: (replyLoop rt tt gen pub st2 now ms).2.1,
       (replyLoop rt tt gen pub st2 now ms).2.2) := by
  conv_lhs => unfold replyLoop
  rw [hr]

/-- The mention loop counts replies exactly: a fully successful pass
publishes one reply per mention, and a failing pass publishes strictly
fewer replies than it was given mentions (the failing mention and all later
ones go unanswered). -/
theorem replyLoop_length (rt tt : List String)
    (gen : ReplyContext → Except String String)
    (pub : String → String → Except String String) (now : Int) :
    ∀ (ms : List Mention) (st : TokenState),
      ((replyLoop rt tt gen pub st now ms).1 = .ok () →
        (replyLoop rt tt gen pub st now ms).2.1.length = ms.length) ∧
      (∀ e, (replyLoop rt tt gen pub st now ms).1 = .error e →
        (replyLoop rt tt gen pub st now ms).2.1.length < ms.length) := by
  intro ms
  induction ms with
  | nil =>
      intro st
      refine ⟨fun _ => rfl, fun e he => ?_⟩
      simp [replyLoop] at he
  | cons m ms ih =>
      intro st
      cases hr : replyToMention rt tt gen pub st now m with
      | mk res st2 =>
        cases res with
        | error e =>
            have hstep := replyLoop_cons_error rt tt gen pub st st2 now m ms
              e hr
            refine ⟨fun h => ?_, fun e2 _ => ?_⟩
            · rw [hstep] at h
              simp at h
            · rw [hstep]
              simp
        | ok r =>
            have hstep := replyLoop_cons_ok rt tt gen pub st st2 now m ms
              r hr
            refine ⟨fun h => ?_, fun e2 he => ?_⟩
            · rw [hstep] at h ⊢
              simp only [List.length_cons]
              rw [(ih st2).1 h]
            · rw [hstep] at he ⊢
              simp only [List.length_cons]
              exact Nat.succ_lt_succ ((ih st2).2 e2 he)

/-- Claim **C2 (counterexample)**: three fresh mentions where reply generation
fails for exactly the second: the batch aborts with that error — the first
mention got its reply, but the third is never processed, and the failure is
raised out of `checkAndReplyToMentions` rather than only logged. -/
theorem C2_counterexample :
    (checkAndReplyToMentions
        (.ok [⟨"m1", "one", none, 1⟩, ⟨"m2", "two", none, 2⟩,
              ⟨"m3", "three", none, 3⟩]) [] []
        (fun c => if c.originalTweet = "two" then .error "boom"
                  else .ok ("re " ++ c.originalTweet))
        (fun pid _ => .ok ("r-" ++ pid)) ⟨[]⟩ 0).1 = .error "boom" ∧
    (checkAndReplyToMentions
        (.ok [⟨"m1", "one", none, 1⟩, ⟨"m2", "two", none, 2⟩,
              ⟨"m3", "three", none, 3⟩]) [] []
        (fun c => if c.originalTweet = "two" then .error "boom"
                  else .ok ("re " ++ c.originalTweet))
        (fun pid _ => .ok ("r-" ++ pid)) ⟨[]⟩ 0).2.1 =
      [⟨"m1", "r-m1", "re one"⟩] := by
  decide

/-- Claim **C2 (amended)**: mentions are processed strictly in order with no
per-item isolation: a failing `replyToMention` aborts the batch — nothing
after it is processed and its error propagates — while a fully successful
batch answers every mention; a failed batch answers strictly fewer mentions
than it received. -/
theorem C2_mention_batch_aborts (rt tt : List String)
    (gen : ReplyContext → Except String String)
    (pub : String → String → Except String String) (st st2 : TokenState)
    (now : Int) (m : Mention) (ms : List Mention) (e : String) :
    (replyToMention rt tt gen pub st now m = (.error e, st2) →
      replyLoop rt tt gen pub st now (m :: ms) = (.error e, [], st2)) ∧
    ((replyLoop rt tt gen pub st now ms).1 = .ok () →
      (replyLoop rt tt gen pub st now ms).2.1.length = ms.length) ∧
    (∀ e2, (replyLoop rt tt gen pub st now ms).1 = .error e2 →
      (replyLoop rt tt gen pub st now ms).2.1.length < ms.length) := by
  exact ⟨fun h => replyLoop_cons_error rt tt gen pub st st2 now m ms e h,
    (replyLoop_length rt tt gen pub now ms st).1,
    (replyLoop_length rt tt gen pub now ms st).2⟩

/-- Claim **C2 (witness)**: concrete instances of the abort behaviour — a batch
headed by the failing mention answers nothing, and the three-mention batch
of the counterexample answers strictly fewer than 3. -/
theorem C2_mention_batch_aborts_witness :
    replyLoop [] []
        (fun c => if c.originalTweet = "two" then .error "boom"
                  else .ok ("re " ++ c.originalTweet))
        (fun pid _ => .ok ("r-" ++ pid)) ⟨[]⟩ 0
        [⟨"m2", "two", none, 2⟩, ⟨"m3", "three", none, 3⟩] =
      (.error "boom", [], ⟨[]⟩) ∧
    (replyLoop [] []
        (fun c => if c.originalTweet = "two" then .error "boom"
                  else .ok ("re " ++ c.originalTweet))
        (fun pid _ => .ok ("r-" ++ pid)) ⟨[]⟩ 0
        [⟨"m1", "one", none, 1⟩, ⟨"m2", "two", none, 2⟩,
         ⟨"m3", "three", none, 3⟩]).2.1.length < 3 :=
  ⟨(C2_mention_batch_aborts [] []
      (fun c => if c.originalTweet = "two" then .error "boom"
                else .ok ("re " ++ c.originalTweet))
      (fun pid _ => .ok ("r-" ++ pid)) ⟨[]⟩ ⟨[]⟩ 0 ⟨"m2", "two", none, 2⟩
      [⟨"m3", "three", none, 3⟩] "boom").1 (by decide),
   (C2_mention_batch_aborts [] []
      (fun c => if c.originalTweet = "two" then .error "boom"
                else .ok ("re " ++ c.originalTweet))
      (fun pid _ => .ok ("r-" ++ pid)) ⟨[]⟩ ⟨[]⟩ 0 ⟨"m1", "one", none, 1⟩
      [⟨"m1", "one", none, 1⟩, ⟨"m2", "two", none, 2⟩,
       ⟨"m3", "three", none, 3⟩] "boom").2.2 "boom" (by decide)⟩

/-- Lemma: `analyzeTweetPerformance` either leaves the store unchanged (all its
failure paths) or succeeds and appends exactly one analysis row. -/
theorem analyzeTweetPerformance_cases (llm : String → Except String AnalysisData)
    (now : Int) (tid : String) (s : Store) :
    (analyzeTweetPerformance llm now tid s).2 = s ∨
    ∃ a, analyzeTweetPerformance llm now tid s =
      (.ok a, { s with analyses := s.analyses ++ [⟨tid, now, a.analysis⟩] }) := by
  unfold analyzeTweetPerformance
  cases (getRecentTweetsWithMetrics 1 s).head? with
  | none => exact Or.inl rfl
  | some row =>
      dsimp only
      split
      · exact Or.inl rfl
      · cases getLatestMetrics s tid with
        | none => exact Or.inl rfl
        | some mrow =>
            dsimp only
            cases llm tid with
            | error e => exact Or.inl rfl
            | ok a => exact Or.inr ⟨a, rfl⟩

/-- Unfolding lemma: a snapshot-fetch failure at the head mature entry
aborts the tracking loop with the watchlist argument unchanged. -/
theorem processTracked_cons_track_error
    (fetch : String → Except String MetricCounts)
    (llm : String → Except String AnalysisData) (now : Int) (t : WatchEntry)
    (rest recent : List WatchEntry) (s s2 : Store) (e : String)
    (h : MetricsTracker.trackTweetMetrics fetch now t.id s = (.error e, s2)) :
    processTracked fetch llm now (t :: rest) recent s =
      (.error e, recent, s2) := by
  conv_lhs => unfold processTracked
  rw [h]

/-- Unfolding lemma: an analysis failure at the head mature entry aborts the
tracking loop with the watchlist argument unchanged (no entry is removed)
and with the store as the analysis step left it. -/
theorem processTracked_cons_analyze_error
    (fetch : String → Except String MetricCounts)
    (llm : String → Except String AnalysisData) (now : Int) (t : WatchEntry)
    (rest recent : List WatchEntry) (s s2 s3 : Store) (mc : MetricCounts)
    (e : String)
    (h1 : MetricsTracker.trackTweetMetrics fetch now t.id s = (.ok mc, s2))
    (h2 : analyzeTweetPerformance llm now t.id s2 = (.error e, s3)) :
    processTracked fetch llm now (t :: rest) recent s =
      (.error e, recent, s3) := by
  conv_lhs => unfold processTracked
  rw [h1]
  dsimp only
  rw [h2]

/-- Unfolding lemma: a fully successful head step removes the entry from the
live watchlist (first occurrence by id) and continues with the rest. -/
theorem processTracked_cons_ok
    (fetch : String → Except String MetricCounts)
    (llm : String → Except String AnalysisData) (now : Int) (t : WatchEntry)
    (rest recent : List WatchEntry) (s s2 s3 : Store) (mc : MetricCounts)
    (a : AnalysisData)
    (h1 : MetricsTracker.trackTweetMetrics fetch now t.id s = (.ok mc, s2))
    (h2 : analyzeTweetPerformance llm now t.id s2 = (.ok a, s3)) :
    processTracked fetch llm now (t :: rest) recent s =
      processTracked fetch llm now rest (eraseFirstById t.id recent) s3 := by
  conv_lhs => unfold processTracked
  rw [h1]
  dsimp only
  rw [h2]

/-- Claim **C1 (counterexample)**: one mature watchlist entry whose analysis step
fails (here because the scheduler never persisted the posted tweet, so the
tweet is absent from the store): `trackTweetMetrics` does NOT remove the
entry — the watchlist is returned unchanged, the cycle aborts with the
analysis error — while the snapshot persisted before the failure remains in
the store.  This refutes "removes that entry ... exactly once per cycle,
even when the analysis step for it fails". -/
theorem C1_counterexample :
    (SchedulerService.trackTweetMetrics (fun _ => .ok ⟨5, 1, 2, 0⟩)
        (fun _ => .error "llm down") 10800001 3
        ⟨[⟨"t1", 0, "gm", ⟨[], [], [], []⟩⟩]⟩ ⟨[], [], []⟩).2.1 =
      ⟨[⟨"t1", 0, "gm", ⟨[], [], [], []⟩⟩]⟩ ∧
    (SchedulerService.trackTweetMetrics (fun _ => .ok ⟨5, 1, 2, 0⟩)
        (fun _ => .error "llm down") 10800001 3
        ⟨[⟨"t1", 0, "gm", ⟨[], [], [], []⟩⟩]⟩ ⟨[], [], []⟩).2.2.metrics =
      [⟨"t1", 10800001, 5, 1, 2, 0⟩] ∧
    (SchedulerService.trackTweetMetrics (fun _ => .ok ⟨5, 1, 2, 0⟩)
        (fun _ => .error "llm down") 10800001 3
        ⟨[⟨"t1", 0, "gm", ⟨[], [], [], []⟩⟩]⟩ ⟨[], [], []⟩).1 =
      .error "Tweet not found in database" := by
  decide

/-- Claim **C1 (amended)**: a mature entry is removed from the watchlist only when
both its snapshot step and its analysis step succeed.  When the snapshot
fetch succeeds, the snapshot is persisted; if the analysis then fails, the
cycle aborts with that error, the watchlist is left as it stood (the failing
entry — and every later mature entry — is not removed), the store is
exactly as the analysis step left it (unchanged from the post-snapshot
store), and the persisted snapshot remains.  When both steps succeed the
entry is removed exactly once (first occurrence by id) before the loop
continues.  A snapshot-fetch failure likewise aborts with nothing removed. -/
theorem C1_mature_entry_removal
    (fetch : String → Except String MetricCounts)
    (llm : String → Except String AnalysisData) (now : Int) (t : WatchEntry)
    (rest recent : List WatchEntry) (s s2 s3 : Store) (mc : MetricCounts)
    (a : AnalysisData) (e : String) :
    (MetricsTracker.trackTweetMetrics fetch now t.id s = (.ok mc, s2) →
      (⟨t.id, now, mc.likes, mc.retweets, mc.replies, mc.impressions⟩ :
          MetricRow) ∈ s2.metrics ∧
      (analyzeTweetPerformance llm now t.id s2 = (.error e, s3) →
        processTracked fetch llm now (t :: rest) recent s =
          (.error e, recent, s3) ∧ s3 = s2) ∧
      (analyzeTweetPerformance llm now t.id s2 = (.ok a, s3) →
        processTracked fetch llm now (t :: rest) recent s =
          processTracked fetch llm now rest (eraseFirstById t.id recent) s3)) ∧
    (fetch t.id = .error e →
      processTracked fetch llm now (t :: rest) recent s =
        (.error e, recent, s)) := by
  constructor
  · intro h1
    refine ⟨?_, fun h2 => ⟨processTracked_cons_analyze_error fetch llm now t
      rest recent s s2 s3 mc e h1 h2, ?_⟩,
      fun h2 => processTracked_cons_ok fetch llm now t rest recent s s2 s3
        mc a h1 h2⟩
    · unfold MetricsTracker.trackTweetMetrics at h1
      cases hf : fetch t.id with
      | error e2 => rw [hf] at h1; simp at h1
      | ok mc2 =>
          rw [hf] at h1
          simp only [Prod.mk.injEq, Except.ok.injEq] at h1
          obtain ⟨hmc, hs⟩ := h1
          subst hmc
          rw [← hs]
          simp
    · rcases analyzeTweetPerformance_cases llm now t.id s2 with hsame | ⟨a2, heq⟩
      · have hsnd := congrArg Prod.snd h2
        simp only at hsnd
        rw [← hsnd]
        exact hsame
      · rw [heq] at h2
        simp at h2
  · intro hf
    refine processTracked_cons_track_error fetch llm now t rest recent s s e ?_
    unfold MetricsTracker.trackTweetMetrics
    rw [hf]

/-- Claim **C1 (witness)**: concrete instances of both branches — an analysis
failure leaves the single mature entry on the watchlist with its snapshot
persisted, and a fully successful step removes it. -/
theorem C1_mature_entry_removal_witness :
    ((⟨"t1", 7, 5, 1, 2, 0⟩ : MetricRow) ∈
      (⟨[], [⟨"t1", 7, 5, 1, 2, 0⟩], []⟩ : Store).metrics ∧
     processTracked (fun _ => .ok ⟨5, 1, 2, 0⟩) (fun _ => .error "x") 7
        [⟨"t1", 0, "gm", ⟨[], [], [], []⟩⟩] [⟨"t1", 0, "gm", ⟨[], [], [], []⟩⟩]
        ⟨[], [], []⟩ =
      (.error "Tweet not found in database",
       [⟨"t1", 0, "gm", ⟨[], [], [], []⟩⟩], ⟨[], [⟨"t1", 7, 5, 1, 2, 0⟩], []⟩)) ∧
    processTracked (fun _ => .ok ⟨5, 1, 2, 0⟩) (fun _ => .ok ⟨"good"⟩) 7
        [⟨"t1", 0, "gm", ⟨[], [], [], []⟩⟩] [⟨"t1", 0, "gm", ⟨[], [], [], []⟩⟩]
        ⟨[⟨"t1", "gm", 0, "generated", none, none⟩], [], []⟩ =
      processTracked (fun _ => .ok ⟨5, 1, 2, 0⟩) (fun _ => .ok ⟨"good"⟩) 7 []
        (eraseFirstById "t1" [⟨"t1", 0, "gm", ⟨[], [], [], []⟩⟩])
        ⟨[⟨"t1", "gm", 0, "generated", none, none⟩], [⟨"t1", 7, 5, 1, 2, 0⟩],
         [⟨"t1", 7, "good"⟩]⟩ := by
  constructor
  · have h := (C1_mature_entry_removal (fun _ => .ok ⟨5, 1, 2, 0⟩)
      (fun _ => .error "x") 7 ⟨"t1", 0, "gm", ⟨[], [], [], []⟩⟩ []
      [⟨"t1", 0, "gm", ⟨[], [], [], []⟩⟩] ⟨[], [], []⟩
      ⟨[], [⟨"t1", 7, 5, 1, 2, 0⟩], []⟩ ⟨[], [⟨"t1", 7, 5, 1, 2, 0⟩], []⟩
      ⟨5, 1, 2, 0⟩ ⟨"good"⟩ "Tweet not found in database").1 (by decide)
    exact ⟨h.1, (h.2.1 (by decide)).1⟩
  · exact ((C1_mature_entry_removal (fun _ => .ok ⟨5, 1, 2, 0⟩)
      (fun _ => .ok ⟨"good"⟩) 7 ⟨"t1", 0, "gm", ⟨[], [], [], []⟩⟩ []
      [⟨"t1", 0, "gm", ⟨[], [], [], []⟩⟩]
      ⟨[⟨"t1", "gm", 0, "generated", none, none⟩], [], []⟩
      ⟨[⟨"t1", "gm", 0, "generated", none, none⟩], [⟨"t1", 7, 5, 1, 2, 0⟩], []⟩
      ⟨[⟨"t1", "gm", 0, "generated", none, none⟩], [⟨"t1", 7, 5, 1, 2, 0⟩],
       [⟨"t1", 7, "good"⟩]⟩
      ⟨5, 1, 2, 0⟩ ⟨"good"⟩ "e").1 (by decide)).2.2 (by decide)

/-- Claim **C7 (counterexample)**: one post with two snapshots — an older one with
100 likes and the most recent one with 1 like.  `getTopPerformingTweets`
returns the post twice (once per snapshot), and its top row is scored from
the older snapshot, not the most recent one: the claim's "joined to its most
recent snapshot" fails. -/
theorem C7_counterexample :
    (getTopPerformingTweets 5
        ⟨[⟨"t1", "hello", 0, "generated", none, none⟩],
         [⟨"t1", 1, 100, 0, 0, 0⟩, ⟨"t1", 2, 1, 0, 0, 0⟩], []⟩).length = 2 ∧
    (getTopPerformingTweets 5
        ⟨[⟨"t1", "hello", 0, "generated", none, none⟩],
         [⟨"t1", 1, 100, 0, 0, 0⟩, ⟨"t1", 2, 1, 0, 0, 0⟩], []⟩).head? =
      some ⟨"t1", "hello", 0, 100, 0, 0, 100⟩ ∧
    getLatestMetrics
        ⟨[⟨"t1", "hello", 0, "generated", none, none⟩],
         [⟨"t1", 1, 100, 0, 0, 0⟩, ⟨"t1", 2, 1, 0, 0, 0⟩], []⟩ "t1" =
      some ⟨"t1", 2, 1, 0, 0, 0⟩ := by
  decide

/-- Claim **C7 (amended)**: `getTopPerformingTweets` never returns a post lacking
a snapshot — every returned row arises from an actual (post, snapshot) pair
of the store and is scored from that snapshot (so a post may appear once per
snapshot, not only with its most recent one) — and the output is ordered by
descending engagement score; `getRecentTweetsWithMetrics` returns the most
recent posts regardless of whether metrics exist, with null metric fields
when a post has no snapshot. -/
theorem C7_store_queries (s : Store) (n : Nat) (r : TopRow) (j : JoinedRow) :
    (r ∈ getTopPerformingTweets n s →
      ∃ t ∈ s.tweets, ∃ m ∈ s.metrics, m.tweet_id = t.id ∧ r = mkTopRow t m) ∧
    List.Pairwise scoreDesc (getTopPerformingTweets n s) ∧
    (j ∈ getRecentTweetsWithMetrics n s →
      ∃ t ∈ s.tweets, j = joinLatest s t ∧
        (metricsFor s t.id = [] →
          j.likes = none ∧ j.retweets = none ∧ j.replies = none)) ∧
    (∀ t ∈ (List.insertionSort createdDesc s.tweets).take n,
      joinLatest s t ∈ getRecentTweetsWithMetrics n s) := by
  refine ⟨?_, ?_, ?_, ?_⟩
  · intro hr
    unfold getTopPerformingTweets at hr
    have hr2 := (List.mem_insertionSort _).mp (List.mem_of_mem_take hr)
    obtain ⟨l, hl, hrl⟩ := List.mem_flatten.mp hr2
    obtain ⟨t, ht, rfl⟩ := List.mem_map.mp hl
    obtain ⟨m, hm, rfl⟩ := List.mem_map.mp hrl
    have hmf := List.mem_filter.mp hm
    exact ⟨t, ht, m, hmf.1, by simpa using hmf.2, rfl⟩
  · unfold getTopPerformingTweets
    exact (List.sorted_insertionSort scoreDesc _).sublist
      (List.take_sublist n _)
  · intro hj
    unfold getRecentTweetsWithMetrics at hj
    obtain ⟨t, ht, rfl⟩ := List.mem_map.mp hj
    refine ⟨t, (List.mem_insertionSort _).mp (List.mem_of_mem_take ht),
      rfl, ?_⟩
    intro hemp
    simp [joinLatest, getLatestMetrics, hemp, List.insertionSort]
  · intro t ht
    unfold getRecentTweetsWithMetrics
    exact List.mem_map_of_mem _ ht

/-- Claim **C7 (witness)**: over the two-snapshot store, the top row arises from a
stored (post, snapshot) pair; a fresh post with no snapshot is returned by
the recent-posts query with null metric fields. -/
theorem C7_store_queries_witness :
    (∃ t ∈ (⟨[⟨"t1", "hello", 0, "generated", none, none⟩],
        [⟨"t1", 1, 100, 0, 0, 0⟩, ⟨"t1", 2, 1, 0, 0, 0⟩], []⟩ : Store).tweets,
      ∃ m ∈ (⟨[⟨"t1", "hello", 0, "generated", none, none⟩],
        [⟨"t1", 1, 100, 0, 0, 0⟩, ⟨"t1", 2, 1, 0, 0, 0⟩], []⟩ : Store).metrics,
        m.tweet_id = t.id ∧
          (⟨"t1", "hello", 0, 100, 0, 0, 100⟩ : TopRow) = mkTopRow t m) ∧
    (∃ t ∈ (⟨[⟨"t2", "new", 9, "generated", none, none⟩], [], []⟩ :
        Store).tweets,
      joinLatest ⟨[⟨"t2", "new", 9, "generated", none, none⟩], [], []⟩
          ⟨"t2", "new", 9, "generated", none, none⟩ =
        joinLatest ⟨[⟨"t2", "new", 9, "generated", none, none⟩], [], []⟩ t ∧
        (metricsFor ⟨[⟨"t2", "new", 9, "generated", none, none⟩], [], []⟩
            t.id = [] →
          (joinLatest ⟨[⟨"t2", "new", 9, "generated", none, none⟩], [], []⟩
              ⟨"t2", "new", 9, "generated", none, none⟩).likes = none ∧
          (joinLatest ⟨[⟨"t2", "new", 9, "generated", none, none⟩], [], []⟩
              ⟨"t2", "new", 9, "generated", none, none⟩).retweets = none ∧
          (joinLatest ⟨[⟨"t2", "new", 9, "generated", none, none⟩], [], []⟩
              ⟨"t2", "new", 9, "generated", none, none⟩).replies = none)) :=
  ⟨(C7_store_queries
      ⟨[⟨"t1", "hello", 0, "generated", none, none⟩],
       [⟨"t1", 1, 100, 0, 0, 0⟩, ⟨"t1", 2, 1, 0, 0, 0⟩], []⟩ 5
      ⟨"t1", "hello", 0, 100, 0, 0, 100⟩
      ⟨"t1", "hello", 0, none, none, none⟩).1 (by decide),
   (C7_store_queries ⟨[⟨"t2", "new", 9, "generated", none, none⟩], [], []⟩ 10
      ⟨"t2", "new", 9, 0, 0, 0, 0⟩
      (joinLatest ⟨[⟨"t2", "new", 9, "generated", none, none⟩], [], []⟩
        ⟨"t2", "new", 9, "generated", none, none⟩)).2.2.1 (by decide)⟩

/-- Every symbol produced by the regex scan is a run of 2–6 uppercase
letters. -/
theorem scanSymbols_spec : ∀ (l run : List Char), run ∈ scanSymbols l →
    2 ≤ run.length ∧ run.length ≤ 6 ∧ ∀ c ∈ run, isUpperLetter c = true := by
  intro l
  induction l with
  | nil =>
      intro run h
      simp [scanSymbols] at h
  | cons c cs ih =>
      intro run h
      unfold scanSymbols at h
      split at h
      · dsimp only at h
        split at h
        · rename_i hcond
          rcases List.mem_cons.mp h with rfl | h2
          · exact ⟨hcond.1, hcond.2.1,
              fun d hd => List.mem_takeWhile_imp hd⟩
          · exact ih run h2
        · exact ih run h
      · exact ih run h

/-- The stateful freshness filter only keeps elements of its input list. -/
theorem filterRecent_subset :
    ∀ (ts : List String) (st : TokenState) (now : Int),
      (filterRecent st now ts).1 ⊆ ts := by
  intro ts
  induction ts with
  | nil =>
      intro st now x hx
      simp [filterRecent] at hx
  | cons t ts ih =>
      intro st now x hx
      cases hb : (isRecentToken st t now).1 with
      | true =>
          simp only [filterRecent, hb, if_true] at hx
          rcases List.mem_cons.mp hx with rfl | hx2
          · exact List.mem_cons_self x ts
          · exact List.mem_cons_of_mem t (ih _ now hx2)
      | false =>
          simp only [filterRecent, hb, if_false] at hx
          exact List.mem_cons_of_mem t (ih _ now hx)

/-- A symbol whose first observation lies 120 hours or more in the past is
classified stale by `isRecentToken`. -/
theorem isRecentToken_stale (st : TokenState) (tok : String) (now t0 : Int)
    (h : lookupToken (jsToUpperCase tok) st.recentTokens = some t0)
    (hst : t0 + 432000000 ≤ now) : (isRecentToken st tok now).1 = false := by
  unfold isRecentToken
  simp only [h]
  rw [decide_eq_false_iff_not, freshWindow_iff]
  omega

/-- A token already stale in the first-seen map is never kept by the
stateful freshness filter (existing first-seen entries are immutable under
the filter's own insertions). -/
theorem filterRecent_stale_not_mem (now t0 : Int) (tok : String) :
    ∀ (ts : List String) (st : TokenState),
      lookupToken (jsToUpperCase tok) st.recentTokens = some t0 →
      t0 + 432000000 ≤ now → tok ∉ (filterRecent st now ts).1 := by
  intro ts
  induction ts with
  | nil =>
      intro st h hst hx
      simp [filterRecent] at hx
  | cons t ts ih =>
      intro st h hst hx
      have hpres := lookupToken_isRecentToken st t now (jsToUpperCase tok)
        t0 h
      cases hb : (isRecentToken st t now).1 with
      | true =>
          simp only [filterRecent, hb, if_true] at hx
          rcases List.mem_cons.mp hx with rfl | hx2
          · rw [isRecentToken_stale st tok now t0 h hst] at hb
            simp at hb
          · exact ih _ hpres hst hx2
      | false =>
          simp only [filterRecent, hb, if_false] at hx
          exact ih _ hpres hst hx

/-- Claim **C8 (counterexample)**: the claim says extraction returns exactly the
tokens of the text matching a leading `$`/`#` followed by 2–6 uppercase
letters.  But the code uppercases the whole text first: `"$abc"` contains no
uppercase letter at all — so no token of the text matches the stated
pattern — yet extraction returns `["ABC"]`. -/
theorem C8_counterexample :
    extractTokenSymbols "$abc" = ["ABC"] ∧
    ∀ c ∈ "$abc".toList, isUpperLetter c = false := by
  decide

/-- Claim **C8 (amended)**: extraction scans the *uppercased* text with
`/[$#]([A-Z]{2,6})\b/g`: every returned symbol is a run of 2–6 uppercase
letters (case distinctions and word boundaries of the original text decide
matches, so lowercase source tokens are extracted uppercased).  In the reply
context, `mentionedTokens` holds only extracted symbols, and a symbol whose
first observation is 120 hours or more in the past is never retained — only
symbols inside the freshness window (or first observed during the check)
are kept. -/
theorem C8_symbol_extraction (text sym : String) (rt tt : List String)
    (st : TokenState) (now t0 : Int) (tweet : String)
    (an au : Option String) (tok : String) :
    (sym ∈ extractTokenSymbols text →
      2 ≤ sym.length ∧ sym.length ≤ 6 ∧
        ∀ c ∈ sym.toList, isUpperLetter c = true) ∧
    ((gatherReplyContext rt tt st now tweet an au).1.mentionedTokens ⊆
      extractTokenSymbols tweet) ∧
    (lookupToken (jsToUpperCase tok) st.recentTokens = some t0 →
      t0 + 432000000 ≤ now →
      tok ∉ (gatherReplyContext rt tt st now tweet an au).1.mentionedTokens) := by
  refine ⟨?_, ?_, ?_⟩
  · intro h
    obtain ⟨run, hrun, rfl⟩ := List.mem_map.mp h
    exact scanSymbols_spec _ run hrun
  · exact filterRecent_subset (extractTokenSymbols tweet) st now
  · intro h hst
    exact filterRecent_stale_not_mem now t0 tok (extractTokenSymbols tweet)
      st h hst

/-- Claim **C8 (witness)**: `$DOGE` yields the 4-letter uppercase symbol `DOGE`;
a symbol first seen exactly 120 hours ago is dropped from the reply context
of a tweet mentioning it. -/
theorem C8_symbol_extraction_witness :
    (2 ≤ ("DOGE" : String).length ∧ ("DOGE" : String).length ≤ 6 ∧
      ∀ c ∈ ("DOGE" : String).toList, isUpperLetter c = true) ∧
    "BTC" ∉ (gatherReplyContext [] [] ⟨[("BTC", 0)]⟩ 432000000 "$BTC up"
      none none).1.mentionedTokens :=
  ⟨(C8_symbol_extraction "get $DOGE now" "DOGE" [] [] ⟨[]⟩ 0 0 "" none none
      "").1 (by decide),
   (C8_symbol_extraction "" "" [] [] ⟨[("BTC", 0)]⟩ 432000000 0 "$BTC up"
      none none "BTC").2.2 (by decide) (by decide)⟩

end XBot

/-! ### Scratch examples (sanity checks of the embedding) -/

example : XBot.extractTokenSymbols "check out $DOGE and #PEPE now" = ["DOGE", "PEPE"] := by decide
example : XBot.extractTokenSymbols "$abc" = ["ABC"] := by decide
example : XBot.extractTokenSymbols "#ABC1 and $ABCDEFG" = [] := by decide
example : XBot.calculateEngagementScore (some ⟨some 1, some 1, some 1, some 0⟩) = 6 := by decide
